import Mathlib

/-!
Shallow embedding of the ML arbitrage scanner core (terminal_scraper.py,
honeypot_detector.py, execution_predictor.py, ml_scanner.py).

Modelling conventions:
- Python floats are modelled as exact rationals (ℚ).
- Python dicts with optional keys are modelled as structures of `Option`
  fields; `d.get(k, default)` becomes `field.getD default`.
- Ambient state (instance attributes, wall-clock time) is passed explicitly.
- The scoring code reads fields only via defaulted lookups and never raises,
  so its embedding is total. The parser, however, calls Python's `float()`
  on regex captures of the class `[\d.]+`, which can raise `ValueError`
  (e.g. on "1.2.3"): `parse_line` below models the runs on which every
  conversion succeeds (captures carried as rationals), and `parse_line_exc`
  refines it with raw string captures, `pyFloat` conversion at the
  `float()` call sites, and the propagating-exception path.
-/

namespace Ayo

/-- Python list max: `max(l)` for nonempty `l`; the code guards the empty
case with `if risk_scores else 0.0`, so the empty case yields 0. -/
def pyMax : List ℚ → ℚ
  | [] => 0
  | x :: xs => xs.foldl max x

/-- Python running minimum over a list, `None` when the list is empty
(models `min_liquidity` staying `float('inf')` when there are no tokens). -/
def pyMin : List ℚ → Option ℚ
  | [] => none
  | x :: xs => some (xs.foldl min x)

/-- Does list `b` start with list `n`? (helper for Python's `in` on strings). -/
def startsWithL : List Char → List Char → Bool
  | [], _ => true
  | _ :: _, [] => false
  | a :: as, b :: bs => a == b && startsWithL as bs

/-- Is `n` a contiguous sublist of the second argument?
(helper for Python's substring test `n in hay`). -/
def subL (n : List Char) : List Char → Bool
  | [] => startsWithL n []
  | b :: bs => startsWithL n (b :: bs) || subL n bs

/-- Python substring containment `needle in hay`. -/
def strHas (hay needle : String) : Bool :=
  subL needle.data hay.data

/-- Python `s.lower()` (ASCII is all that appears in the sources). -/
def strLower (s : String) : String :=
  String.mk (s.data.map Char.toLower)

/-- Token-metrics record produced by the research collaborator
(spec section 3, "Research"; read by honeypot_detector.py and
execution_predictor.py via `token_data.get(...)`). -/
structure TokenData where
  liquidity_usd : Option ℚ := none
  volume_24h : Option ℚ := none
  age_days : Option ℚ := none
  holder_count : Option ℚ := none
  tax_buy : Option ℚ := none
  tax_sell : Option ℚ := none
  contract_verified : Option Bool := none
  is_honeypot : Option Bool := none
  can_take_back_ownership : Option Bool := none
  address : Option String := none
  deriving DecidableEq, Inhabited

/-- Pair-level liquidity map inside a research record
(`research.get('liquidity', {})`; a missing map behaves like the
all-absent record, since it is only read via `.get`). -/
structure LiquidityData where
  buy_dex_liquidity : Option ℚ := none
  sell_dex_liquidity : Option ℚ := none
  deriving DecidableEq, Inhabited

/-- Upstream risk-factor map inside a research record
(`research.get('risk_factors', {})`). -/
structure RiskFactors where
  honeypot_risk : Option ℚ := none
  deriving DecidableEq, Inhabited

/-- Research record handed to the scoring pipeline; `tokens` models the
symbol-keyed dict (only `.values()` is read by the scorers). -/
structure Research where
  tokens : List (String × TokenData) := []
  liquidity : LiquidityData := {}
  risk_factors : RiskFactors := {}
  deriving DecidableEq, Inhabited

/-- The parsed-and-enriched opportunity dict created by
terminal_scraper.py and later mutated by ml_scanner.py.
`gasRatioVal` models the dict key `gas_ratio`. -/
structure Opp where
  timestamp : Nat := 0
  raw_text : String := ""
  token0 : Option String := none
  token1 : Option String := none
  pair : Option String := none
  buy_dex : Option String := none
  sell_dex : Option String := none
  optimal_amount : Option ℚ := none
  amount_token : Option String := none
  gross_profit_usd : Option ℚ := none
  gross_profit_wei : Option Nat := none
  gas_cost : Option ℚ := none
  net_profit : Option ℚ := none
  block : Option Nat := none
  flashloan_provider : Option String := none
  addresses : List String := []
  gasRatioVal : Option ℚ := none
  is_uniswap_v2 : Option Bool := none
  is_uniswap_v3 : Option Bool := none
  is_sushiswap : Option Bool := none
  is_cross_dex : Option Bool := none
  honeypot_risk : Option ℚ := none
  viability_score : Option ℚ := none
  viable : Option Bool := none
  deriving DecidableEq, Inhabited

/-! ## honeypot_detector.py -/

/-- The `honeypot_patterns` table (honeypot_detector.py lines 26-33) as
applied by the loop in `_evaluate_token_risk` lines 77-80: each matching
pattern adds 0.3 to the running risk. Note the defaults: `age_days`
defaults to 365 and `holder_count` to 1000 in this table. -/
def patternRiskSum (td : TokenData) : ℚ :=
  (if td.tax_sell.getD 0 > 50 then 0.3 else 0) +
  (if td.can_take_back_ownership.getD false then 0.3 else 0) +
  (if td.liquidity_usd.getD 0 < 1000 then 0.3 else 0) +
  (if td.age_days.getD 365 < 1 then 0.3 else 0) +
  (if td.holder_count.getD 1000 < 10 then 0.3 else 0) +
  (if !(td.contract_verified.getD false) then 0.3 else 0)

/-- Lines 73-120 of `HoneypotDetector._evaluate_token_risk`: the running
risk after the pattern-sum accumulation and the max against each
triggered severity, before the known-address overrides. -/
def severityChain (td : TokenData) : ℚ :=
  let r0 := patternRiskSum td
  let r1 := if td.is_honeypot.getD false then max r0 0.9 else r0
  let sell_tax := td.tax_sell.getD 0
  let r2 := if sell_tax > 50 then max r1 0.95
            else if sell_tax > 25 then max r1 0.7
            else if sell_tax > 10 then max r1 0.4
            else r1
  let r3 := if td.can_take_back_ownership.getD false then max r2 0.8 else r2
  let r4 := if td.liquidity_usd.getD 0 < 10000 then max r3 0.6 else r3
  let r5 := if td.age_days.getD 0 < 7 then max r4 0.5 else r4
  if td.holder_count.getD 0 < 50 then max r5 0.6 else r5

/-- `HoneypotDetector._evaluate_token_risk` (honeypot_detector.py lines
71-133): the severity chain, then the known-address overrides (lines
122-128), then `min(risk, 1.0)`. Python's `if address and ...` truthiness
makes an empty-string address skip both overrides. -/
def evaluate_token_risk (known_honeypots known_safe : List String)
    (td : TokenData) : ℚ :=
  min
    (match td.address with
     | some a =>
         if a ≠ "" ∧ a ∈ known_honeypots then 1.0
         else if a ≠ "" ∧ a ∈ known_safe then min (severityChain td) 0.2
         else severityChain td
     | none => severityChain td)
    1.0

/-- `HoneypotDetector._evaluate_pair_risk` (honeypot_detector.py lines
135-161): profit floor, liquidity-imbalance floor, "new"-venue floor. -/
def evaluate_pair_risk (opp : Opp) (research : Research) : ℚ :=
  let r0 : ℚ := 0
  let r1 := if opp.net_profit.getD 0 > 1000 then max r0 0.3 else r0
  let buy_liq := research.liquidity.buy_dex_liquidity.getD 1
  let sell_liq := research.liquidity.sell_dex_liquidity.getD 1
  let r2 := if buy_liq > 0 ∧ sell_liq > 0 then
              (if min buy_liq sell_liq / max buy_liq sell_liq < 0.1
               then max r1 0.5 else r1)
            else r1
  let r3 := if strHas (strLower (opp.buy_dex.getD "")) "new"
            then max r2 0.4 else r2
  let r4 := if strHas (strLower (opp.sell_dex.getD "")) "new"
            then max r3 0.4 else r3
  r4

/-- `HoneypotDetector._extract_features` (honeypot_detector.py lines
193-220): the 20-entry padded/truncated feature vector. -/
def extract_features (opp : Opp) (research : Research) : List ℚ :=
  let fs := [opp.net_profit.getD 0, opp.gasRatioVal.getD 0,
             if opp.is_cross_dex.getD false then 1 else 0] ++
    (research.tokens.map Prod.snd).flatMap (fun td =>
      [td.liquidity_usd.getD 0, td.volume_24h.getD 0, td.age_days.getD 0,
       td.holder_count.getD 0, td.tax_sell.getD 0,
       if td.contract_verified.getD false then 1 else 0])
  (fs ++ List.replicate (20 - fs.length) 0).take 20

/-- The attached isolation-forest anomaly model, abstracted to the two
values the code reads from it: `predict(...)[0]` and
`score_samples(...)[0]` on the (scaled) feature vector. -/
structure IsoModel where
  predictAt : List ℚ → Int
  scoreAt : List ℚ → ℚ

/-- `HoneypotDetector._ml_risk_assessment` (honeypot_detector.py lines
163-191): maps the anomaly branch to `0.7 + (1-(score+1)/2)*0.3` and the
normal branch to `max(0, (1-(score+1)/2)*0.7)`. (The exception and
`features is None` fallbacks to 0.5 are unreachable in the embedding,
where feature extraction is total.) -/
def ml_risk_assessment (m : IsoModel) (opp : Opp) (research : Research) : ℚ :=
  let features := extract_features opp research
  let prediction := m.predictAt features
  let score := m.scoreAt features
  if prediction = -1 then 0.7 + (1 - (score + 1) / 2) * 0.3
  else max 0 ((1 - (score + 1) / 2) * 0.7)

/-- The `HoneypotDetector` instance state read by `check_honeypot`. -/
structure DetectorState where
  known_honeypots : List String := []
  known_safe : List String := []
  isolation_forest : Option IsoModel := none

/-- `HoneypotDetector.check_honeypot` (honeypot_detector.py lines 39-69):
per-token risks, then pair risk, then the ML risk when a model is
attached; overall risk is the Python `max` of the collected list. -/
def check_honeypot (st : DetectorState) (opp : Opp) (research : Research) : ℚ :=
  let risk_scores :=
    (research.tokens.map
      (fun t => evaluate_token_risk st.known_honeypots st.known_safe t.2)) ++
    [evaluate_pair_risk opp research] ++
    (match st.isolation_forest with
     | some m => [ml_risk_assessment m opp research]
     | none => [])
  pyMax risk_scores

/-! ## terminal_scraper.py -/

/-- One already-stripped input line, abstracted to the capture results of
the ten regex patterns of `TerminalScraper.__init__` (terminal_scraper.py
lines 15-26): `isBlank` models `not line` after `line.strip()`;
`isHeader` models a match of `opportunity_start` (its numeric capture is
never read by the code); the remaining fields carry the captured groups
of the correspondingly named pattern, `none` when the pattern does not
match; `addrs` is the `findall` result of the address pattern. Numeric
captures are carried already converted to ℚ, so this type models exactly
the runs on which every `float()` conversion in `_extract_fields`
succeeds; `RawLine` and `parse_line_exc` below model the conversion step
itself, including its uncaught-`ValueError` path. -/
structure Line where
  isBlank : Bool := false
  isHeader : Bool := false
  tokenPair : Option (String × String) := none
  dexes : Option (String × String) := none
  optAmount : Option (ℚ × String) := none
  grossProfit : Option (ℚ × Nat) := none
  gasCost : Option ℚ := none
  netProfit : Option ℚ := none
  blockNum : Option Nat := none
  flashloan : Option String := none
  addrs : List String := []
  text : String := ""
  deriving DecidableEq, Inhabited

/-- The accumulating `current_opportunity` dict while a record is pending
(keys appear as they are extracted; a fresh record starts with only
`timestamp` and `raw_text`). -/
structure Pending where
  timestamp : Nat := 0
  raw_text : List String := []
  token0 : Option String := none
  token1 : Option String := none
  pair : Option String := none
  buy_dex : Option String := none
  sell_dex : Option String := none
  optimal_amount : Option ℚ := none
  amount_token : Option String := none
  gross_profit_usd : Option ℚ := none
  gross_profit_wei : Option Nat := none
  gas_cost : Option ℚ := none
  net_profit : Option ℚ := none
  block : Option Nat := none
  flashloan_provider : Option String := none
  addresses : List String := []
  deriving DecidableEq, Inhabited

/-- `TerminalScraper` instance state: the (write-only) `buffer` list and
`current_opportunity`, where `none` models the falsy empty dict. -/
structure ScraperState where
  buffer : List String := []
  cur : Option Pending := none
  deriving DecidableEq, Inhabited

/-- The fresh record built on an opportunity-header line
(terminal_scraper.py lines 52-55). -/
def freshPending (now : Nat) : Pending :=
  { timestamp := now, raw_text := [] }

/-- `TerminalScraper._extract_fields` (terminal_scraper.py lines 71-123):
last-write-wins per field; addresses strictly accumulate. -/
def extract_fields (o : Pending) (l : Line) : Pending :=
  let o := match l.tokenPair with
    | some (a, b) =>
        { o with token0 := some a, token1 := some b,
                 pair := some (a ++ "/" ++ b) }
    | none => o
  let o := match l.dexes with
    | some (b, s) => { o with buy_dex := some b, sell_dex := some s }
    | none => o
  let o := match l.optAmount with
    | some (q, t) => { o with optimal_amount := some q, amount_token := some t }
    | none => o
  let o := match l.grossProfit with
    | some (u, w) =>
        { o with gross_profit_usd := some u, gross_profit_wei := some w }
    | none => o
  let o := match l.gasCost with
    | some q => { o with gas_cost := some q }
    | none => o
  let o := match l.netProfit with
    | some q => { o with net_profit := some q }
    | none => o
  let o := match l.blockNum with
    | some n => { o with block := some n }
    | none => o
  let o := match l.flashloan with
    | some f => { o with flashloan_provider := some f }
    | none => o
  { o with addresses := o.addresses ++ l.addrs }

/-- `TerminalScraper._validate_opportunity` (terminal_scraper.py lines
125-141): required-field presence plus `net_profit > 0`. -/
def validate_opportunity (o : Pending) : Bool :=
  o.pair.isSome && o.buy_dex.isSome && o.sell_dex.isSome &&
  o.net_profit.isSome && o.block.isSome &&
  decide (0 < o.net_profit.getD 0)

/-- `TerminalScraper._enrich_opportunity` (terminal_scraper.py lines
143-164): derived `gas_ratio` (modelled by `gasRatioVal`), venue flags by
substring match, cross-DEX flag, joined raw text. -/
def enrich_opportunity (o : Pending) : Opp :=
  { timestamp := o.timestamp
    raw_text := String.intercalate "\n" o.raw_text
    token0 := o.token0, token1 := o.token1, pair := o.pair
    buy_dex := o.buy_dex, sell_dex := o.sell_dex
    optimal_amount := o.optimal_amount, amount_token := o.amount_token
    gross_profit_usd := o.gross_profit_usd
    gross_profit_wei := o.gross_profit_wei
    gas_cost := o.gas_cost, net_profit := o.net_profit
    block := o.block, flashloan_provider := o.flashloan_provider
    addresses := o.addresses
    gasRatioVal := some (match o.gross_profit_usd with
      | some g => if 0 < g then o.gas_cost.getD 0 / g else 1
      | none => 1)
    is_uniswap_v2 := some (strHas (o.buy_dex.getD "") "UniswapV2" ||
                           strHas (o.sell_dex.getD "") "UniswapV2")
    is_uniswap_v3 := some (strHas (o.buy_dex.getD "") "UniswapV3" ||
                           strHas (o.sell_dex.getD "") "UniswapV3")
    is_sushiswap := some (strHas (o.buy_dex.getD "") "Sushiswap" ||
                          strHas (o.sell_dex.getD "") "Sushiswap")
    is_cross_dex := some (decide (o.buy_dex ≠ o.sell_dex)) }

/-- Lines 57-69 of terminal_scraper.py: append the line to the pending
record's raw text and extract fields (when a record is pending), then the
field-based completion trigger (`'block' in ... and 'net_profit' in ...`),
with validation-or-silent-drop on firing. -/
def finishLine (s1 : ScraperState) (cur0 : Option Pending) (l : Line) :
    ScraperState × Option Opp :=
  match cur0 with
  | some o =>
    let o1 := extract_fields { o with raw_text := o.raw_text ++ [l.text] } l
    if o1.block.isSome && o1.net_profit.isSome then
      if validate_opportunity o1 then
        ({ s1 with cur := none }, some (enrich_opportunity o1))
      else ({ s1 with cur := none }, none)
    else ({ s1 with cur := some o1 }, none)
  | none => ({ s1 with cur := none }, none)

/-- `TerminalScraper.parse_line` (terminal_scraper.py lines 32-69).
`now` supplies the `datetime.now()` timestamp of a fresh record. Note the
early return on the header branch when the prior pending record
validates: in that case `current_opportunity` is left empty and no fresh
record is begun. -/
def parse_line (now : Nat) (s : ScraperState) (l : Line) :
    ScraperState × Option Opp :=
  if l.isBlank then (s, none)
  else
    let s1 := { s with buffer := s.buffer ++ [l.text] }
    if l.isHeader then
      match s1.cur with
      | some o =>
        if validate_opportunity o then
          ({ s1 with cur := none }, some (enrich_opportunity o))
        else finishLine s1 (some (freshPending now)) l
      | none => finishLine s1 (some (freshPending now)) l
    else finishLine s1 s1.cur l

/-- A variant of `parse_line` whose header branch never emits: a header
line unconditionally discards the prior pending state and begins a fresh
record. Used to state that the header-path emission of `parse_line` is
dead code. -/
def parse_line_field (now : Nat) (s : ScraperState) (l : Line) :
    ScraperState × Option Opp :=
  if l.isBlank then (s, none)
  else
    let s1 := { s with buffer := s.buffer ++ [l.text] }
    if l.isHeader then finishLine s1 (some (freshPending now)) l
    else finishLine s1 s1.cur l

/-- Feed a sequence of lines through `parse_line`, collecting every
emitted record in order (the producer loop of the stream). -/
def feedLines (now : Nat) : ScraperState → List Line → ScraperState × List Opp
  | s, [] => (s, [])
  | s, l :: ls =>
    let sr := parse_line now s l
    let rest := feedLines now sr.1 ls
    (rest.1, sr.2.toList ++ rest.2)

/-- `feedLines` on the header-emission-free variant. -/
def feedLinesField (now : Nat) :
    ScraperState → List Line → ScraperState × List Opp
  | s, [] => (s, [])
  | s, l :: ls =>
    let sr := parse_line_field now s l
    let rest := feedLinesField now sr.1 ls
    (rest.1, sr.2.toList ++ rest.2)

/-- A freshly constructed `TerminalScraper` (empty buffer, empty dict). -/
def initScraper : ScraperState := {}

/-- The pending record never holds both `block` and `net_profit` at the
start of a line (the invariant that makes the header emission path dead). -/
def noDual (s : ScraperState) : Prop :=
  ∀ o, s.cur = some o → ¬(o.block.isSome = true ∧ o.net_profit.isSome = true)

/-- The exact guard of the header-branch early return of `parse_line`: a
non-blank header line arriving while the pending record validates. -/
def headerEmitCond (s : ScraperState) (l : Line) : Prop :=
  l.isBlank = false ∧ l.isHeader = true ∧
  ∃ o, s.cur = some o ∧ validate_opportunity o = true

/-! ### The float() conversion layer of _extract_fields

The four patterns `optimal_amount`, `gross_profit`, `gas_cost` and
`net_profit` capture the character class `[\d.]+` and convert it with
Python's `float()`, which raises an uncaught `ValueError` on captures
such as "1.2.3" or "." (there is no try/except anywhere in
`TerminalScraper`). The `(\d+)` captures of `gross_profit`, `block` and
`opportunity_start` are converted with `int()`, which cannot fail on a
digits-only string. The following refined model carries those four
captures as raw strings and performs the conversion explicitly. -/

/-- Value of a digits-only capture (the integer part of a float capture,
or an `int()` site). -/
def digitsToNat (ds : List Char) : Nat :=
  ds.foldl (fun a c => 10 * a + (c.toNat - 48)) 0

/-- Value of the fractional digits of a float capture. -/
def fracDigitsToRat (ds : List Char) : ℚ :=
  ds.foldr (fun c a => ((c.toNat - 48 : ℚ) + a) / 10) 0

/-- Python `float()` restricted to the strings the `[\d.]+` capture class
can produce (digits and dots, nonempty): it succeeds exactly when the
string has at most one dot and at least one digit — `float("1.")`,
`float(".5")`, `float("120.50")` succeed, while `float("1.2.3")` and
`float(".")` raise `ValueError`, modelled as `none`. -/
def pyFloat (s : List Char) : Option ℚ :=
  if decide (s.count '.' ≤ 1) && s.any Char.isDigit &&
     s.all (fun c => c.isDigit || c == '.') then
    some ((digitsToNat (s.takeWhile (fun c => c != '.')) : ℚ) +
          fracDigitsToRat ((s.dropWhile (fun c => c != '.')).drop 1))
  else none

/-- A `Line` whose four float-bearing captures are still raw strings, as
the regexes produce them. -/
structure RawLine where
  isBlank : Bool := false
  isHeader : Bool := false
  tokenPair : Option (String × String) := none
  dexes : Option (String × String) := none
  optAmountRaw : Option (String × String) := none
  grossProfitRaw : Option (String × Nat) := none
  gasCostRaw : Option String := none
  netProfitRaw : Option String := none
  blockNum : Option Nat := none
  flashloan : Option String := none
  addrs : List String := []
  text : String := ""
  deriving DecidableEq, Inhabited

/-- `TerminalScraper._extract_fields` with the `float()` call sites made
explicit: patterns are applied in source order, a failing conversion
raises before its field (or any later field) is written, and the error
value carries the partially updated dict exactly as the Python instance
state is left when the `ValueError` propagates. -/
def extract_fields_exc (o0 : Pending) (l : RawLine) :
    Except Pending Pending := do
  let o1 := match l.tokenPair with
    | some (a, b) =>
        { o0 with token0 := some a, token1 := some b,
                  pair := some (a ++ "/" ++ b) }
    | none => o0
  let o2 := match l.dexes with
    | some (b, s) => { o1 with buy_dex := some b, sell_dex := some s }
    | none => o1
  let o3 ← match l.optAmountRaw with
    | some (raw, t) =>
        match pyFloat raw.data with
        | some v =>
            Except.ok { o2 with optimal_amount := some v,
                                amount_token := some t }
        | none => Except.error o2
    | none => Except.ok o2
  let o4 ← match l.grossProfitRaw with
    | some (raw, wei) =>
        match pyFloat raw.data with
        | some v =>
            Except.ok { o3 with gross_profit_usd := some v,
                                gross_profit_wei := some wei }
        | none => Except.error o3
    | none => Except.ok o3
  let o5 ← match l.gasCostRaw with
    | some raw =>
        match pyFloat raw.data with
        | some v => Except.ok { o4 with gas_cost := some v }
        | none => Except.error o4
    | none => Except.ok o4
  let o6 ← match l.netProfitRaw with
    | some raw =>
        match pyFloat raw.data with
        | some v => Except.ok { o5 with net_profit := some v }
        | none => Except.error o5
    | none => Except.ok o5
  let o7 := match l.blockNum with
    | some n => { o6 with block := some n }
    | none => o6
  let o8 := match l.flashloan with
    | some f => { o7 with flashloan_provider := some f }
    | none => o7
  Except.ok { o8 with addresses := o8.addresses ++ l.addrs }

/-- Lines 57-69 of terminal_scraper.py over raw captures: a `ValueError`
inside `_extract_fields` propagates out of `parse_line`, leaving the
instance state with the buffer and raw text already appended and the
fields before the failing conversion already written. -/
def finishLine_exc (s1 : ScraperState) (cur0 : Option Pending)
    (l : RawLine) : Except ScraperState (ScraperState × Option Opp) :=
  match cur0 with
  | some o =>
    match extract_fields_exc { o with raw_text := o.raw_text ++ [l.text] } l with
    | Except.error opart => Except.error { s1 with cur := some opart }
    | Except.ok o1 =>
      if o1.block.isSome && o1.net_profit.isSome then
        if validate_opportunity o1 then
          Except.ok ({ s1 with cur := none }, some (enrich_opportunity o1))
        else Except.ok ({ s1 with cur := none }, none)
      else Except.ok ({ s1 with cur := some o1 }, none)
  | none => Except.ok ({ s1 with cur := none }, none)

/-- `TerminalScraper.parse_line` over raw captures: identical to
`parse_line` except that the `float()` conversions are explicit, so the
result is either the normal (state, zero-or-one record) outcome or a
propagating `ValueError` carrying the mutated instance state. -/
def parse_line_exc (now : Nat) (s : ScraperState) (l : RawLine) :
    Except ScraperState (ScraperState × Option Opp) :=
  if l.isBlank then Except.ok (s, none)
  else
    let s1 := { s with buffer := s.buffer ++ [l.text] }
    if l.isHeader then
      match s1.cur with
      | some o =>
        if validate_opportunity o then
          Except.ok ({ s1 with cur := none }, some (enrich_opportunity o))
        else finishLine_exc s1 (some (freshPending now)) l
      | none => finishLine_exc s1 (some (freshPending now)) l
    else finishLine_exc s1 s1.cur l

/-! ## execution_predictor.py -/

/-- Ambient inputs of `ExecutionPredictor`: the wall clock read by
`_score_market_conditions` (`datetime.now().hour` / `.weekday()`), the
`network_congestion` attribute, and the `success_rates` dict (modelled as
an association list in insertion order). -/
structure Env where
  hour : Nat := 0
  weekday : Nat := 0
  congestion : ℚ := 0.5
  success_rates : List (String × ℚ) := []

/-- `ExecutionPredictor._score_profit` (execution_predictor.py lines
65-83). Note the top bracket: the code tests `net_profit > 5000`, so
exactly 5000 falls into the 0.95 branch. -/
def score_profit (opp : Opp) : ℚ :=
  let net_profit := opp.net_profit.getD 0
  if net_profit ≤ 0 then 0
  else if net_profit < 10 then 0.2
  else if net_profit < 50 then 0.5
  else if net_profit < 100 then 0.7
  else if net_profit < 500 then 0.85
  else if net_profit > 5000 then 0.5
  else 0.95

/-- `ExecutionPredictor._score_liquidity` (execution_predictor.py lines
85-107): minimum per-token liquidity, `inf` (no tokens) or 0 scoring 0. -/
def score_liquidity (research : Research) : ℚ :=
  match pyMin (research.tokens.map (fun t => t.2.liquidity_usd.getD 0)) with
  | none => 0
  | some m =>
    if m = 0 then 0
    else if m < 10000 then 0.1
    else if m < 50000 then 0.3
    else if m < 100000 then 0.5
    else if m < 500000 then 0.7
    else if m < 1000000 then 0.85
    else 1

/-- `ExecutionPredictor._score_gas_efficiency` (execution_predictor.py
lines 109-124); `gas_ratio` defaults to 1.0 here. -/
def score_gas_efficiency (opp : Opp) : ℚ :=
  let g := opp.gasRatioVal.getD 1
  if g ≥ 0.8 then 0
  else if g ≥ 0.5 then 0.3
  else if g ≥ 0.3 then 0.5
  else if g ≥ 0.2 then 0.7
  else if g ≥ 0.1 then 0.85
  else 1

/-- The multiplicative degradation one token contributes in
`_score_token_safety` (execution_predictor.py lines 130-158). -/
def tokenSafetyFactor (td : TokenData) : ℚ :=
  (if !(td.contract_verified.getD false) then 0.7 else 1) *
  (let age := td.age_days.getD 0
   if age < 7 then 0.5 else if age < 30 then 0.7
   else if age < 90 then 0.85 else 1) *
  (let holders := td.holder_count.getD 0
   if holders < 100 then 0.6 else if holders < 500 then 0.8 else 1) *
  (let sell_tax := td.tax_sell.getD 0
   if sell_tax > 10 then 0.3 else if sell_tax > 5 then 0.6
   else if sell_tax > 2 then 0.8 else 1)

/-- `ExecutionPredictor._score_token_safety` (execution_predictor.py
lines 126-160): product over tokens starting from 1.0. -/
def score_token_safety (research : Research) : ℚ :=
  research.tokens.foldl (fun acc t => acc * tokenSafetyFactor t.2) 1

/-- `ExecutionPredictor._score_market_conditions` (execution_predictor.py
lines 162-188): time-of-day and weekend multipliers, congestion
multiplier, absolute gas-cost penalty, capped at 1.0. -/
def score_market_conditions (env : Env) (opp : Opp) : ℚ :=
  let s0 : ℚ := 0.5
  let s1 := if 14 ≤ env.hour ∧ env.hour ≤ 18 then s0 * 0.8
            else if 2 ≤ env.hour ∧ env.hour ≤ 6 then s0 * 1.2
            else s0
  let s2 := if env.weekday = 5 ∨ env.weekday = 6 then s1 * 1.1 else s1
  let s3 := s2 * (1.5 - env.congestion)
  let gas_cost := opp.gas_cost.getD 0
  let s4 := if gas_cost > 100 then s3 * 0.7
            else if gas_cost > 50 then s3 * 0.85
            else s3
  min s4 1

/-- `ExecutionPredictor._score_historical_success` (execution_predictor.py
lines 190-211): exact trade-key lookup, else a similarity pass over all
known keys containing the pair, at 0.8 times the best rate, default 0.5. -/
def score_historical_success (env : Env) (opp : Opp) : ℚ :=
  let trade_key := opp.pair.getD "" ++ "_" ++ opp.buy_dex.getD "" ++ "_" ++
                   opp.sell_dex.getD ""
  match env.success_rates.lookup trade_key with
  | some rate => rate
  | none =>
    env.success_rates.foldl
      (fun acc kr =>
        if strHas kr.1 (opp.pair.getD "") then max acc (kr.2 * 0.8) else acc)
      0.5

/-- `ExecutionPredictor._apply_penalties` (execution_predictor.py lines
213-240): honeypot-risk, day-old-token, extreme-profit and low-volume
multiplicative penalties. Note the day-old check reads
`token_data.get('age_days', 365)`. -/
def apply_penalties (base : ℚ) (opp : Opp) (research : Research) : ℚ :=
  let honeypot_risk := research.risk_factors.honeypot_risk.getD 0
  let s1 := if honeypot_risk > 0.5 then base * (1 - honeypot_risk) else base
  let s2 := if research.tokens.any (fun t => decide (t.2.age_days.getD 365 < 1))
            then s1 * 0.3 else s1
  let s3 := if opp.net_profit.getD 0 > 10000 then s2 * 0.2 else s2
  let s4 := if research.tokens.any (fun t => decide (t.2.volume_24h.getD 0 < 1000))
            then s3 * 0.5 else s3
  s4

/-- `ExecutionPredictor.predict_viability` (execution_predictor.py lines
33-63): fixed-weight blend of the six sub-scores, penalty pass, final
clamp to [0, 1]. -/
def predict_viability (env : Env) (opp : Opp) (research : Research) : ℚ :=
  let viability :=
    score_profit opp * 0.25 + score_liquidity research * 0.2 +
    score_gas_efficiency opp * 0.15 + score_token_safety research * 0.2 +
    score_market_conditions env opp * 0.1 +
    score_historical_success env opp * 0.1
  min (max (apply_penalties viability opp research) 0) 1

/-- `ExecutionPredictor.get_execution_recommendation`
(execution_predictor.py lines 277-288). -/
def get_execution_recommendation (viability : ℚ) : Bool × String :=
  if viability ≥ 0.8 then (true, "STRONG BUY - High confidence execution")
  else if viability ≥ 0.6 then (true, "EXECUTE - Good opportunity")
  else if viability ≥ 0.4 then (false, "RISKY - Consider waiting")
  else if viability ≥ 0.2 then (false, "AVOID - High risk, low reward")
  else (false, "SKIP - Do not execute")

/-! ## ml_scanner.py (pipeline consumer) -/

/-- The pipeline's decision for a dequeued record, instrumented with
whether `predict_viability` was invoked, plus the arguments forwarded to
`db.store_opportunity`. -/
structure ProcessResult where
  opp : Opp
  research : Research
  viability_invoked : Bool
  stored : Option (Opp × Research)

/-- The per-record body of `MLArbitrageSystem.process_opportunities`
(ml_scanner.py lines 139-179), with the already-fetched research record
passed in (the research call is an external collaborator): honeypot
check, short-circuit above 0.7, otherwise viability scoring and the
`viability > 0.6` viable flag, then storage of the record and research. -/
def process_opportunity (env : Env) (det : DetectorState) (opp : Opp)
    (research : Research) : ProcessResult :=
  let honeypot_risk := check_honeypot det opp research
  if honeypot_risk > 0.7 then
    let opp1 := { opp with honeypot_risk := some honeypot_risk,
                           viable := some false }
    { opp := opp1, research := research, viability_invoked := false,
      stored := some (opp1, research) }
  else
    let viability := predict_viability env opp research
    let opp1 := { opp with viability_score := some viability,
                           viable := some (decide (viability > 0.6)) }
    { opp := opp1, research := research, viability_invoked := true,
      stored := some (opp1, research) }

/-- The pipeline's viable flag as a function of the viability score
(ml_scanner.py line 163). -/
def pipeline_viable (viability : ℚ) : Bool :=
  decide (viability > 0.6)

/-! ## Spec-side comparison definitions -/

/-- The per-token severity table exactly as the spec words it (section
4.2): the maximum of the independently triggered severities — confirmed
honeypot 0.9; sell tax over 50 percent 0.95, over 25 percent 0.7, over 10
percent 0.4; ownership takeback 0.8; liquidity under 10000 dollars 0.6;
contract age under 7 days 0.5; holder count under 50 0.6 — and 0 when
nothing triggers. Field reads use the same defaulted lookups as the
severity section of the code. -/
def specSeverityMax (td : TokenData) : ℚ :=
  max (if td.is_honeypot.getD false then 0.9 else 0)
  (max (if td.tax_sell.getD 0 > 50 then 0.95
        else if td.tax_sell.getD 0 > 25 then 0.7
        else if td.tax_sell.getD 0 > 10 then 0.4
        else 0)
  (max (if td.can_take_back_ownership.getD false then 0.8 else 0)
  (max (if td.liquidity_usd.getD 0 < 10000 then 0.6 else 0)
  (max (if td.age_days.getD 0 < 7 then 0.5 else 0)
       (if td.holder_count.getD 0 < 50 then 0.6 else 0)))))

/-- The profit step function exactly as the spec words it (section 4.3):
netProfit at most 0 scores 0.0, under 10 scores 0.2, under 50 scores 0.5,
under 100 scores 0.7, under 500 scores 0.85, under 5000 scores 0.95, and
at least 5000 scores 0.5. -/
def specProfitStep (net_profit : ℚ) : ℚ :=
  if net_profit ≤ 0 then 0
  else if net_profit < 10 then 0.2
  else if net_profit < 50 then 0.5
  else if net_profit < 100 then 0.7
  else if net_profit < 500 then 0.85
  else if net_profit < 5000 then 0.95
  else 0.5

/-! ## Claim C7: the profit sub-score step function -/

/-- Claim C7, counterexample: the claim asserts that a net profit of
exactly 5000 scores 0.5, but `_score_profit` tests `net_profit > 5000`,
so 5000 lands in the 0.95 bracket; the spec-worded step function indeed
gives 0.5 there, so the two functions differ at 5000. -/
theorem score_profit_at_5000 :
    score_profit { net_profit := some 5000 } = 0.95 ∧
    specProfitStep 5000 = 0.5 ∧ (0.95 : ℚ) ≠ 0.5 := by
  refine ⟨by norm_num [score_profit], by norm_num [specProfitStep], by norm_num⟩

/-- Claim C7, amended: the profit sub-score is the step function
netProfit at most 0 gives 0.0, under 10 gives 0.2, under 50 gives 0.5,
under 100 gives 0.7, under 500 gives 0.85, at most 5000 gives 0.95, and
strictly over 5000 gives 0.5 — in particular exactly 5000 scores 0.95,
not 0.5. -/
theorem score_profit_step_characterization (opp : Opp) :
    score_profit opp =
      (let np := opp.net_profit.getD 0
       if np ≤ 0 then 0
       else if np < 10 then 0.2
       else if np < 50 then 0.5
       else if np < 100 then 0.7
       else if np < 500 then 0.85
       else if np ≤ 5000 then 0.95
       else (0.5 : ℚ)) := by
  unfold score_profit
  set np := opp.net_profit.getD 0 with hnp
  simp only
  split_ifs with h1 h2 h3 h4 h5 h6 h7 <;> first | rfl | linarith

/-! ## Claim C9: recommendation tiers versus the pipeline viable flag -/

/-- Claim C9, counterexample: at a viability score of exactly 0.6 the
recommendation tier is EXECUTE (and the recommendation's own boolean is
true), yet the pipeline's viable flag `score > 0.6` is false — so the
viable flag is not true exactly when the tier is EXECUTE or STRONG_BUY,
and the two decisions do not agree at the shared 0.6 boundary. -/
theorem recommendation_viable_disagree_at_0_6 :
    get_execution_recommendation 0.6 = (true, "EXECUTE - Good opportunity") ∧
    pipeline_viable 0.6 = false := by
  constructor
  · norm_num [get_execution_recommendation]
  · norm_num [pipeline_viable]

/-- Claim C9, amended: the tiers are STRONG_BUY iff the score is at least
0.8, EXECUTE iff it is in [0.6, 0.8), RISKY iff in [0.4, 0.6), AVOID iff
in [0.2, 0.4), SKIP otherwise, and the recommendation boolean is true iff
the score is at least 0.6; the pipeline's viable flag is `score > 0.6`,
so it is true exactly when the tier is EXECUTE or STRONG_BUY AND the
score is not exactly 0.6: the two decisions disagree at 0.6, where the
tier is EXECUTE but viable is false. -/
theorem recommendation_tiers_characterization (s : ℚ) :
    ((get_execution_recommendation s).2 =
        "STRONG BUY - High confidence execution" ↔ 0.8 ≤ s) ∧
    ((get_execution_recommendation s).2 = "EXECUTE - Good opportunity" ↔
        0.6 ≤ s ∧ s < 0.8) ∧
    ((get_execution_recommendation s).2 = "RISKY - Consider waiting" ↔
        0.4 ≤ s ∧ s < 0.6) ∧
    ((get_execution_recommendation s).2 = "AVOID - High risk, low reward" ↔
        0.2 ≤ s ∧ s < 0.4) ∧
    ((get_execution_recommendation s).2 = "SKIP - Do not execute" ↔
        s < 0.2) ∧
    ((get_execution_recommendation s).1 = true ↔ 0.6 ≤ s) ∧
    (pipeline_viable s = true ↔
        ((get_execution_recommendation s).1 = true ∧ s ≠ 0.6)) := by
  unfold get_execution_recommendation pipeline_viable
  split_ifs with h1 h2 h3 h4
  · -- region: 0.8 ≤ s
    refine ⟨iff_of_true rfl (by linarith), ?_, ?_, ?_, ?_,
            iff_of_true rfl (by linarith), ?_⟩
    · exact iff_of_false (by decide) (by rintro ⟨_, hb⟩; linarith)
    · exact iff_of_false (by decide) (by rintro ⟨_, hb⟩; linarith)
    · exact iff_of_false (by decide) (by rintro ⟨_, hb⟩; linarith)
    · exact iff_of_false (by decide) (by intro hb; linarith)
    · simp only [decide_eq_true_eq]
      constructor
      · intro hgt
        exact ⟨by trivial, by intro he; rw [he] at hgt; linarith⟩
      · rintro ⟨_, hne⟩
        exact lt_of_le_of_ne (by linarith) (Ne.symm hne)
  · -- region: 0.6 ≤ s < 0.8
    refine ⟨?_, iff_of_true rfl ⟨by linarith, by linarith⟩, ?_, ?_, ?_,
            iff_of_true rfl (by linarith), ?_⟩
    · exact iff_of_false (by decide) (by intro hb; exact h1 (by linarith))
    · exact iff_of_false (by decide) (by rintro ⟨_, hb⟩; linarith)
    · exact iff_of_false (by decide) (by rintro ⟨_, hb⟩; linarith)
    · exact iff_of_false (by decide) (by intro hb; linarith)
    · simp only [decide_eq_true_eq]
      constructor
      · intro hgt
        exact ⟨by trivial, by intro he; rw [he] at hgt; linarith⟩
      · rintro ⟨_, hne⟩
        exact lt_of_le_of_ne (by linarith) (Ne.symm hne)
  · -- region: 0.4 ≤ s < 0.6
    refine ⟨?_, ?_, iff_of_true rfl ⟨by linarith, by exact lt_of_not_le h2⟩,
            ?_, ?_, ?_, ?_⟩
    · exact iff_of_false (by decide) (by intro hb; exact h1 (by linarith))
    · exact iff_of_false (by decide) (by rintro ⟨hb, _⟩; exact h2 hb)
    · exact iff_of_false (by decide) (by rintro ⟨_, hb⟩; linarith)
    · exact iff_of_false (by decide) (by intro hb; linarith)
    · exact iff_of_false (by decide) (fun hb => h2 hb)
    · refine iff_of_false ?_ (by rintro ⟨hb, _⟩; exact absurd hb (by decide))
      simp only [decide_eq_true_eq]
      intro hgt
      exact h2 (by linarith)
  · -- region: 0.2 ≤ s < 0.4
    refine ⟨?_, ?_, ?_,
            iff_of_true rfl ⟨by linarith, by exact lt_of_not_le h3⟩,
            ?_, ?_, ?_⟩
    · exact iff_of_false (by decide) (by intro hb; exact h1 (by linarith))
    · exact iff_of_false (by decide) (by rintro ⟨hb, _⟩; exact h2 hb)
    · exact iff_of_false (by decide) (by rintro ⟨hb, _⟩; exact h3 hb)
    · exact iff_of_false (by decide) (by intro hb; linarith)
    · exact iff_of_false (by decide) (fun hb => h2 hb)
    · refine iff_of_false ?_ (by rintro ⟨hb, _⟩; exact absurd hb (by decide))
      simp only [decide_eq_true_eq]
      intro hgt
      exact h2 (by linarith)
  · -- region: s < 0.2
    refine ⟨?_, ?_, ?_, ?_, iff_of_true rfl (by exact lt_of_not_le h4),
            ?_, ?_⟩
    · exact iff_of_false (by decide) (by intro hb; exact h1 (by linarith))
    · exact iff_of_false (by decide) (by rintro ⟨hb, _⟩; exact h2 hb)
    · exact iff_of_false (by decide) (by rintro ⟨hb, _⟩; exact h3 hb)
    · exact iff_of_false (by decide) (by rintro ⟨hb, _⟩; exact h4 hb)
    · exact iff_of_false (by decide) (fun hb => h2 hb)
    · refine iff_of_false ?_ (by rintro ⟨hb, _⟩; exact absurd hb (by decide))
      simp only [decide_eq_true_eq]
      intro hgt
      exact h2 (by linarith)

/-! ## Claim C1: per-token honeypot risk aggregation -/

lemma ite_max_eq (c : Prop) [Decidable c] (r v : ℚ) (h : 0 ≤ r) :
    (if c then max r v else r) = max r (if c then v else 0) := by
  split_ifs with hc
  · rfl
  · exact (max_eq_left h).symm

lemma ite3_max_eq (c1 c2 c3 : Prop) [Decidable c1] [Decidable c2]
    [Decidable c3] (r v1 v2 v3 : ℚ) (h : 0 ≤ r) :
    (if c1 then max r v1
     else if c2 then max r v2
     else if c3 then max r v3
     else r) =
    max r (if c1 then v1 else if c2 then v2 else if c3 then v3 else 0) := by
  split_ifs <;> first | rfl | exact (max_eq_left h).symm

lemma patternRiskSum_nonneg (td : TokenData) : 0 ≤ patternRiskSum td := by
  unfold patternRiskSum
  split_ifs <;> norm_num

/-- The severity chain collapses to the max of the pattern sum and the
spec's severity maximum. -/
lemma severityChain_eq (td : TokenData) :
    severityChain td = max (patternRiskSum td) (specSeverityMax td) := by
  have h0 := patternRiskSum_nonneg td
  have h1 : (0:ℚ) ≤ max (patternRiskSum td)
      (if td.is_honeypot.getD false then (0.9:ℚ) else 0) :=
    le_trans h0 (le_max_left _ _)
  have h2 : (0:ℚ) ≤ max (max (patternRiskSum td)
      (if td.is_honeypot.getD false then (0.9:ℚ) else 0))
      (if td.tax_sell.getD 0 > 50 then (0.95:ℚ)
       else if td.tax_sell.getD 0 > 25 then 0.7
       else if td.tax_sell.getD 0 > 10 then 0.4 else 0) :=
    le_trans h1 (le_max_left _ _)
  have h3 : (0:ℚ) ≤ max (max (max (patternRiskSum td)
      (if td.is_honeypot.getD false then (0.9:ℚ) else 0))
      (if td.tax_sell.getD 0 > 50 then (0.95:ℚ)
       else if td.tax_sell.getD 0 > 25 then 0.7
       else if td.tax_sell.getD 0 > 10 then 0.4 else 0))
      (if td.can_take_back_ownership.getD false then (0.8:ℚ) else 0) :=
    le_trans h2 (le_max_left _ _)
  have h4 : (0:ℚ) ≤ max (max (max (max (patternRiskSum td)
      (if td.is_honeypot.getD false then (0.9:ℚ) else 0))
      (if td.tax_sell.getD 0 > 50 then (0.95:ℚ)
       else if td.tax_sell.getD 0 > 25 then 0.7
       else if td.tax_sell.getD 0 > 10 then 0.4 else 0))
      (if td.can_take_back_ownership.getD false then (0.8:ℚ) else 0))
      (if td.liquidity_usd.getD 0 < 10000 then (0.6:ℚ) else 0) :=
    le_trans h3 (le_max_left _ _)
  have h5 : (0:ℚ) ≤ max (max (max (max (max (patternRiskSum td)
      (if td.is_honeypot.getD false then (0.9:ℚ) else 0))
      (if td.tax_sell.getD 0 > 50 then (0.95:ℚ)
       else if td.tax_sell.getD 0 > 25 then 0.7
       else if td.tax_sell.getD 0 > 10 then 0.4 else 0))
      (if td.can_take_back_ownership.getD false then (0.8:ℚ) else 0))
      (if td.liquidity_usd.getD 0 < 10000 then (0.6:ℚ) else 0))
      (if td.age_days.getD 0 < 7 then (0.5:ℚ) else 0) :=
    le_trans h4 (le_max_left _ _)
  unfold severityChain specSeverityMax
  dsimp only []
  rw [ite_max_eq _ _ _ h0, ite3_max_eq _ _ _ _ _ _ _ h1,
      ite_max_eq _ _ _ h2, ite_max_eq _ _ _ h3, ite_max_eq _ _ _ h4,
      ite_max_eq _ _ _ h5]
  simp only [max_assoc]

/-- A token with healthy liquidity, age and holder count whose
`contract_verified` flag is absent (the C1 counterexample input). -/
def tdUnverifiedOnly : TokenData :=
  { liquidity_usd := some 20000, age_days := some 10,
    holder_count := some 100 }

/-- Claim C1, counterexample: a token with 20000 dollars of liquidity,
age 10 days and 100 holders triggers none of the spec's severities (its
spec-side severity maximum is 0), yet `_evaluate_token_risk` scores it
0.3, because the `unverified` entry of the pattern table adds 0.3 for its
absent `contract_verified` flag — so per-token risk is not the maximum of
the listed severities, and a token triggering none of them need not score
0. -/
theorem token_risk_not_severity_max :
    evaluate_token_risk [] [] tdUnverifiedOnly = 0.3 ∧
    specSeverityMax tdUnverifiedOnly = 0 ∧
    (0.3 : ℚ) ≠ 0 := by
  have hpat : patternRiskSum tdUnverifiedOnly = 0.3 := by
    norm_num [patternRiskSum, tdUnverifiedOnly]
  have hsev : specSeverityMax tdUnverifiedOnly = 0 := by
    norm_num [specSeverityMax, tdUnverifiedOnly]
  refine ⟨?_, hsev, by norm_num⟩
  show min (severityChain tdUnverifiedOnly) 1.0 = 0.3
  rw [severityChain_eq, hpat, hsev]
  rw [max_eq_left (by norm_num : (0:ℚ) ≤ 0.3)]
  rw [min_eq_left (by norm_num : (0.3:ℚ) ≤ 1.0)]

/-- Claim C1, amended: with the known-address overrides not in play
(empty known-honeypot and known-safe sets), the per-token risk equals
`min(1, max(patternSum, severityMax))` where `patternSum` adds 0.3 for
every matching entry of the `honeypot_patterns` table and `severityMax`
is the spec's maximum of triggered severities; the risk equals the pure
severity maximum only when the pattern sum does not exceed it, and a
token triggering no severity can still score up to 1 from patterns
alone. -/
theorem token_risk_pattern_sum_max (td : TokenData) :
    evaluate_token_risk [] [] td =
      min (max (patternRiskSum td) (specSeverityMax td)) 1 := by
  unfold evaluate_token_risk
  cases ha : td.address with
  | none =>
      simp only [severityChain_eq]
      rw [show (1.0:ℚ) = 1 from by norm_num]
  | some a =>
      simp only [List.not_mem_nil, and_false, if_false, severityChain_eq]
      rw [show (1.0:ℚ) = 1 from by norm_num]

/-! ## Claim C8: missing-field defaults in scoring inputs -/

/-- A token whose only present field is a healthy 24h volume (age is
absent). -/
def tdVolOnly : TokenData := { volume_24h := some 5000 }

/-- The same token with `age_days` explicitly present and equal to 0. -/
def tdVolAgeZero : TokenData := { volume_24h := some 5000, age_days := some 0 }

/-- Claim C8, counterexample: a token record missing `age_days` is NOT
scored as a token whose age is 0 days: in `_apply_penalties` the day-old
check reads `token_data.get('age_days', 365)`, so the missing-age token
takes no penalty (result 1) while the age-0 token takes the 0.3 penalty
(result 0.3). -/
theorem penalties_missing_age_not_zero :
    apply_penalties 1 {} { tokens := [("T", tdVolOnly)] } = 1 ∧
    apply_penalties 1 {} { tokens := [("T", tdVolAgeZero)] } = 0.3 ∧
    (1 : ℚ) ≠ 0.3 := by
  refine ⟨?_, ?_, by norm_num⟩ <;>
    norm_num [apply_penalties, tdVolOnly, tdVolAgeZero]

/-- Replace every absent `age_days` in a research record's tokens by the
explicit value 365. -/
def fillMissingAge (r : Research) : Research :=
  { r with tokens := r.tokens.map (fun t =>
      (t.1, if t.2.age_days = none
            then { t.2 with age_days := some 365 } else t.2)) }

/-- Claim C8, amended: absent scoring fields never cause a failure and
are read through site-specific defaults, but the default is not uniformly
zero/false: the penalty pass reads a missing `age_days` as 365 days (and
the honeypot pattern table reads missing `age_days` as 365 and missing
`holder_count` as 1000), so a token missing `age_days` is scored exactly
as a token aged 365 days in the penalty pass — not as one aged 0 days. -/
theorem apply_penalties_missing_age_is_365 (base : ℚ) (opp : Opp)
    (r : Research) :
    apply_penalties base opp (fillMissingAge r) =
      apply_penalties base opp r := by
  unfold apply_penalties
  dsimp only [fillMissingAge]
  rw [List.any_map, List.any_map]
  have hage :
      (fun t : String × TokenData => decide (t.2.age_days.getD 365 < 1)) ∘
        (fun t : String × TokenData =>
          (t.1, if t.2.age_days = none
                then { t.2 with age_days := some 365 } else t.2)) =
      (fun t : String × TokenData => decide (t.2.age_days.getD 365 < 1)) := by
    funext t
    by_cases h : t.2.age_days = none
    · simp [h]
    · simp [h]
  have hvol :
      (fun t : String × TokenData => decide (t.2.volume_24h.getD 0 < 1000)) ∘
        (fun t : String × TokenData =>
          (t.1, if t.2.age_days = none
                then { t.2 with age_days := some 365 } else t.2)) =
      (fun t : String × TokenData => decide (t.2.volume_24h.getD 0 < 1000)) := by
    funext t
    by_cases h : t.2.age_days = none
    · simp [h]
    · simp [h]
  rw [hage, hvol]

/-! ## Claim C3: overall honeypot-risk aggregation and bounds -/

lemma le_foldl_max (xs : List ℚ) : ∀ a : ℚ, a ≤ xs.foldl max a := by
  induction xs with
  | nil => intro a; exact le_refl a
  | cons x xs ih =>
      intro a
      exact le_trans (le_max_left a x) (ih (max a x))

lemma mem_le_foldl_max (xs : List ℚ) :
    ∀ (a x : ℚ), x ∈ xs → x ≤ xs.foldl max a := by
  induction xs with
  | nil => intro a x hx; cases hx
  | cons y ys ih =>
      intro a x hx
      rcases List.mem_cons.mp hx with rfl | hx'
      · exact le_trans (le_max_right a x) (le_foldl_max ys (max a x))
      · exact ih (max a y) x hx'

lemma foldl_max_le (xs : List ℚ) :
    ∀ (a b : ℚ), a ≤ b → (∀ x ∈ xs, x ≤ b) → xs.foldl max a ≤ b := by
  induction xs with
  | nil => intro a b hab _; exact hab
  | cons y ys ih =>
      intro a b hab hall
      exact ih (max a y) b (max_le hab (hall y (List.mem_cons_self y ys)))
        (fun x hx => hall x (List.mem_cons_of_mem y hx))

lemma mem_le_pyMax (l : List ℚ) (x : ℚ) (hx : x ∈ l) : x ≤ pyMax l := by
  cases l with
  | nil => cases hx
  | cons y ys =>
      rcases List.mem_cons.mp hx with rfl | hx'
      · exact le_foldl_max ys x
      · exact mem_le_foldl_max ys y x hx'

lemma pyMax_le (l : List ℚ) (b : ℚ) (hb : 0 ≤ b)
    (h : ∀ x ∈ l, x ≤ b) : pyMax l ≤ b := by
  cases l with
  | nil => exact hb
  | cons y ys =>
      exact foldl_max_le ys y b (h y (List.mem_cons_self y ys))
        (fun x hx => h x (List.mem_cons_of_mem y hx))

lemma evaluate_pair_risk_nonneg (opp : Opp) (research : Research) :
    0 ≤ evaluate_pair_risk opp research := by
  unfold evaluate_pair_risk
  dsimp only []
  split_ifs <;> norm_num [le_max_iff]

lemma evaluate_pair_risk_le_one (opp : Opp) (research : Research) :
    evaluate_pair_risk opp research ≤ 1 := by
  unfold evaluate_pair_risk
  dsimp only []
  split_ifs <;> norm_num [max_le_iff]

lemma evaluate_token_risk_le_one (kh ks : List String) (td : TokenData) :
    evaluate_token_risk kh ks td ≤ 1 := by
  unfold evaluate_token_risk
  calc min _ (1.0 : ℚ) ≤ 1.0 := min_le_right _ _
    _ = 1 := by norm_num

/-- The risk-score list built by `check_honeypot`. -/
lemma check_honeypot_def (st : DetectorState) (opp : Opp) (r : Research) :
    check_honeypot st opp r = pyMax
      ((r.tokens.map
        (fun t => evaluate_token_risk st.known_honeypots st.known_safe t.2)) ++
      [evaluate_pair_risk opp r] ++
      (match st.isolation_forest with
       | some m => [ml_risk_assessment m opp r]
       | none => [])) := rfl

/-- An anomaly model whose prediction is always "anomaly" (-1) and whose
anomaly score is always -3 (the claim admits arbitrary real scores). -/
def isoAlwaysAnomaly : IsoModel :=
  { predictAt := fun _ => -1, scoreAt := fun _ => -3 }

/-- Detector state with the always-anomaly model attached. -/
def detAnomaly : DetectorState := { isolation_forest := some isoAlwaysAnomaly }

/-- Claim C3, counterexample: with an attached anomaly model reporting
prediction -1 and anomaly score -3 on an empty research record, the ML
risk is 0.7 + (1 - (-3+1)/2) * 0.3 = 1.3 and `check_honeypot` returns the
unclamped maximum 1.3, which lies outside [0, 1]. -/
theorem check_honeypot_exceeds_one :
    check_honeypot detAnomaly {} {} = 1.3 ∧ ¬(1.3 : ℚ) ≤ 1 := by
  constructor
  · rw [check_honeypot_def]
    have hml : ml_risk_assessment isoAlwaysAnomaly {} {} = 1.3 := by
      norm_num [ml_risk_assessment, isoAlwaysAnomaly]
    have hpair : evaluate_pair_risk ({} : Opp) ({} : Research) = 0 := by
      have hnew : strHas (strLower "") "new" = false := by decide
      norm_num [evaluate_pair_risk, hnew]
    show pyMax ([] ++ [evaluate_pair_risk {} {}] ++
      [ml_risk_assessment isoAlwaysAnomaly {} {}]) = 1.3
    rw [hml, hpair]
    show max (0 : ℚ) 1.3 = 1.3
    rw [max_eq_right (by norm_num : (0:ℚ) ≤ 1.3)]
  · norm_num

/-- Claim C3, amended: `check_honeypot` returns the maximum of its
component risks — it dominates every per-token risk, the pair risk, and
the ML risk when a model is attached — and it is always nonnegative; it
is bounded by 1 whenever the attached model's risk is at most 1, and in
particular whenever no anomaly model is attached. It is NOT clamped, so
an anomaly score below -1 can push it above 1. -/
theorem check_honeypot_is_component_max (st : DetectorState) (opp : Opp)
    (r : Research) :
    (∀ t ∈ r.tokens,
        evaluate_token_risk st.known_honeypots st.known_safe t.2 ≤
          check_honeypot st opp r) ∧
    evaluate_pair_risk opp r ≤ check_honeypot st opp r ∧
    (∀ m, st.isolation_forest = some m →
        ml_risk_assessment m opp r ≤ check_honeypot st opp r) ∧
    0 ≤ check_honeypot st opp r ∧
    ((∀ m, st.isolation_forest = some m →
        ml_risk_assessment m opp r ≤ 1) →
      check_honeypot st opp r ≤ 1) := by
  rw [check_honeypot_def]
  refine ⟨?_, ?_, ?_, ?_, ?_⟩
  · intro t ht
    exact mem_le_pyMax _ _ (by
      refine List.mem_append_left _ (List.mem_append_left _ ?_)
      exact List.mem_map_of_mem _ ht)
  · exact mem_le_pyMax _ _ (by
      exact List.mem_append_left _ (List.mem_append_right _ (by simp)))
  · intro m hm
    refine mem_le_pyMax _ _ (List.mem_append_right _ ?_)
    rw [hm]
    simp
  · refine le_trans (evaluate_pair_risk_nonneg opp r) (mem_le_pyMax _ _ ?_)
    exact List.mem_append_left _ (List.mem_append_right _ (by simp))
  · intro hml
    refine pyMax_le _ _ (by norm_num) ?_
    intro x hx
    rcases List.mem_append.mp hx with hx1 | hx2
    · rcases List.mem_append.mp hx1 with hx3 | hx4
      · rcases List.mem_map.mp hx3 with ⟨t, _, rfl⟩
        exact evaluate_token_risk_le_one _ _ _
      · rcases List.mem_singleton.mp hx4 with rfl
        exact evaluate_pair_risk_le_one opp r
    · cases him : st.isolation_forest with
      | none => rw [him] at hx2; cases hx2
      | some m =>
          rw [him] at hx2
          rcases List.mem_singleton.mp hx2 with rfl
          exact hml m him

/-- A token used to witness the component-domination statement. -/
def tdSafeW : TokenData := { liquidity_usd := some 50000 }

/-- Research record with the single witness token. -/
def resW : Research := { tokens := [("AAA", tdSafeW)] }

/-- Witness for the amended C3 theorem: at a concrete detector state with
no model and a one-token research record, every inner hypothesis is
discharged and the bounds hold. -/
theorem check_honeypot_is_component_max_witness :
    evaluate_token_risk [] [] tdSafeW ≤ check_honeypot {} {} resW ∧
    0 ≤ check_honeypot {} {} resW ∧ check_honeypot {} {} resW ≤ 1 := by
  obtain ⟨h1, _, _, h4, h5⟩ := check_honeypot_is_component_max {} {} resW
  refine ⟨h1 ("AAA", tdSafeW) (by simp [resW]), h4, h5 ?_⟩
  intro m hm
  simp only [DetectorState.isolation_forest] at hm
  cases hm

/-! ## Parser lemmas (claims C2, C4, C10) -/

lemma validate_fields (o : Pending) (h : validate_opportunity o = true) :
    o.pair.isSome = true ∧ o.buy_dex.isSome = true ∧
    o.sell_dex.isSome = true ∧ o.net_profit.isSome = true ∧
    o.block.isSome = true ∧ 0 < o.net_profit.getD 0 := by
  unfold validate_opportunity at h
  simp only [Bool.and_eq_true, decide_eq_true_eq] at h
  exact ⟨h.1.1.1.1.1, h.1.1.1.1.2, h.1.1.1.2, h.1.1.2, h.1.2, h.2⟩

lemma noDual_finishLine (s1 : ScraperState) (cur0 : Option Pending)
    (l : Line) : noDual (finishLine s1 cur0 l).1 := by
  unfold finishLine noDual
  cases cur0 with
  | none => intro o ho; simp at ho
  | some o0 =>
      dsimp only []
      split_ifs with hbn hval
      · intro o ho; simp at ho
      · intro o ho; simp at ho
      · intro o ho
        simp only [ScraperState.cur] at ho
        have := Option.some.inj ho
        subst this
        rintro ⟨hb, hn⟩
        exact hbn (by rw [hb, hn]; rfl)

lemma noDual_parse_line (now : Nat) (s : ScraperState) (l : Line)
    (h : noDual s) : noDual (parse_line now s l).1 := by
  unfold parse_line
  by_cases hb : l.isBlank = true
  · rw [if_pos hb]; exact h
  · rw [if_neg hb]
    dsimp only []
    by_cases hh : l.isHeader = true
    · rw [if_pos hh]
      cases hcur : s.cur with
      | none => exact noDual_finishLine _ _ _
      | some o =>
          dsimp only []
          by_cases hval : validate_opportunity o = true
          · rw [if_pos hval]
            intro o' ho'
            simp at ho'
          · rw [if_neg hval]
            exact noDual_finishLine _ _ _
    · rw [if_neg hh]
      exact noDual_finishLine _ _ _

lemma noDual_feedLines (now : Nat) :
    ∀ (ls : List Line) (s : ScraperState), noDual s →
      noDual (feedLines now s ls).1 := by
  intro ls
  induction ls with
  | nil => intro s h; exact h
  | cons l ls ih =>
      intro s h
      simp only [feedLines]
      exact ih _ (noDual_parse_line now s l h)

lemma noDual_init : noDual initScraper := by
  intro o ho
  simp [initScraper] at ho

lemma parse_line_eq_field (now : Nat) (s : ScraperState) (l : Line)
    (h : noDual s) : parse_line now s l = parse_line_field now s l := by
  unfold parse_line parse_line_field
  by_cases hb : l.isBlank = true
  · rw [if_pos hb, if_pos hb]
  · rw [if_neg hb, if_neg hb]
    dsimp only []
    by_cases hh : l.isHeader = true
    · rw [if_pos hh, if_pos hh]
      cases hcur : s.cur with
      | none => rfl
      | some o =>
          have hval : ¬ validate_opportunity o = true := by
            intro hv
            obtain ⟨_, _, _, hnp, hbk, _⟩ := validate_fields o hv
            exact h o hcur ⟨hbk, hnp⟩
          dsimp only []
          rw [if_neg hval]
    · rw [if_neg hh, if_neg hh]

lemma feedLines_eq_field (now : Nat) :
    ∀ (ls : List Line) (s : ScraperState), noDual s →
      feedLines now s ls = feedLinesField now s ls := by
  intro ls
  induction ls with
  | nil => intro s _; rfl
  | cons l ls ih =>
      intro s h
      have hnd : noDual (parse_line now s l).1 := noDual_parse_line now s l h
      have heq := parse_line_eq_field now s l h
      simp only [feedLines, feedLinesField]
      rw [← heq, ih _ hnd]

/-! ## Claim C2: the dual completion trigger -/

/-- Claim C2, counterexample: on no run of the parser from its initial
state can the header path emit: when an opportunity-header line arrives,
the pending record never validates, because at the start of any line of
any reachable state it cannot hold both `block` and `net_profit` (the
field trigger would already have finalized it on the line that completed
the pair) — refuting the claim that both emission paths can actually emit
a valid record. -/
theorem header_path_never_emits :
    ¬ ∃ (now : Nat) (ls : List Line) (l : Line),
        headerEmitCond (feedLines now initScraper ls).1 l := by
  rintro ⟨now, ls, l, _, _, o, hcur, hval⟩
  have hnd : noDual (feedLines now initScraper ls).1 :=
    noDual_feedLines now ls initScraper noDual_init
  obtain ⟨_, _, _, hnp, hbk, _⟩ := validate_fields o hval
  exact hnd o hcur ⟨hbk, hnp⟩

/-- Header line of the witness run. -/
def lnHeaderW : Line := { isHeader := true, text := "h" }

/-- Token-pair and venue line of the witness run. -/
def lnPairDexW : Line :=
  { tokenPair := some ("FOO", "BAR"), dexes := some ("U", "S"), text := "p" }

/-- Terminal line of the witness run, carrying net profit and block. -/
def lnDoneW : Line := { netProfit := some 5, blockNum := some 7, text := "d" }

/-- Claim C2, amended: a pending record is finalized on a header line or
on the line completing {blockNumber, netProfit}, but only the field
trigger can actually emit: on every run from the initial state the parser
behaves exactly like the variant whose header branch unconditionally
discards the prior pending state (never emitting it) and begins a fresh
record; and the field-trigger path does emit on a well-formed three-line
input. -/
theorem parser_emission_is_field_only :
    (∀ (now : Nat) (ls : List Line),
        feedLines now initScraper ls = feedLinesField now initScraper ls) ∧
    (feedLines 0 initScraper [lnHeaderW, lnPairDexW, lnDoneW]).2.length = 1 := by
  constructor
  · intro now ls
    exact feedLines_eq_field now ls initScraper noDual_init
  · decide

/-! ## Claim C4: feedLine error behaviour and emitted-record invariants -/

lemma finishLine_emits (s1 : ScraperState) (cur0 : Option Pending) (l : Line)
    (opp : Opp) (h : (finishLine s1 cur0 l).2 = some opp) :
    ∃ o1, validate_opportunity o1 = true ∧ opp = enrich_opportunity o1 := by
  unfold finishLine at h
  cases cur0 with
  | none => simp at h
  | some o0 =>
      dsimp only [] at h
      split_ifs at h with h1 h2
      all_goals first
        | exact ⟨_, h2, (Option.some.inj h).symm⟩
        | simp at h

/-- Success-path record invariant (the half of claim C4 the code does
satisfy): on runs where every `float()` conversion succeeds (the `Line`
model), `parse_line` returns nothing or exactly one record, and any
returned record contains pair, buy venue, sell venue, net profit and
block number, with net profit strictly positive. -/
theorem parse_line_emits_validated (now : Nat) (s : ScraperState) (l : Line)
    (opp : Opp) (h : (parse_line now s l).2 = some opp) :
    opp.pair.isSome = true ∧ opp.buy_dex.isSome = true ∧
    opp.sell_dex.isSome = true ∧ opp.net_profit.isSome = true ∧
    opp.block.isSome = true ∧ 0 < opp.net_profit.getD 0 := by
  have key : ∃ o1, validate_opportunity o1 = true ∧
      opp = enrich_opportunity o1 := by
    unfold parse_line at h
    by_cases hb : l.isBlank = true
    · rw [if_pos hb] at h; simp at h
    · rw [if_neg hb] at h
      dsimp only [] at h
      by_cases hh : l.isHeader = true
      · rw [if_pos hh] at h
        cases hcur : s.cur with
        | none => rw [hcur] at h; exact finishLine_emits _ _ _ _ h
        | some o =>
            rw [hcur] at h
            dsimp only [] at h
            by_cases hval : validate_opportunity o = true
            · rw [if_pos hval] at h
              exact ⟨o, hval, (Option.some.inj h).symm⟩
            · rw [if_neg hval] at h
              exact finishLine_emits _ _ _ _ h
      · rw [if_neg hh] at h
        exact finishLine_emits _ _ _ _ h
  obtain ⟨o1, hval, rfl⟩ := key
  obtain ⟨h1, h2, h3, h4, h5, h6⟩ := validate_fields o1 hval
  exact ⟨h1, h2, h3, h4, h5, h6⟩

/-- The accumulating state of the C4 witness (pair and venues already
seen). -/
def sAccumW : ScraperState :=
  { cur := some { pair := some "FOO/BAR", buy_dex := some "U",
                  sell_dex := some "S" } }

/-- The record that the C4 witness run emits. -/
def oppEmittedW : Opp :=
  { raw_text := "d", pair := some "FOO/BAR", buy_dex := some "U",
    sell_dex := some "S", net_profit := some 5, block := some 7,
    gasRatioVal := some 1, is_uniswap_v2 := some false,
    is_uniswap_v3 := some false, is_sushiswap := some false,
    is_cross_dex := some true }

/-- The success-path invariant instantiated: a concrete accumulating
state plus the terminal line emits a concrete record with the required
fields. -/
theorem parse_line_emits_validated_witness :
    oppEmittedW.pair.isSome = true ∧ oppEmittedW.buy_dex.isSome = true ∧
    oppEmittedW.sell_dex.isSome = true ∧
    oppEmittedW.net_profit.isSome = true ∧
    oppEmittedW.block.isSome = true ∧ 0 < oppEmittedW.net_profit.getD 0 :=
  parse_line_emits_validated 0 sAccumW lnDoneW oppEmittedW (by decide)

/-- The header line of the raising run, as the regexes see it. -/
def rawHeaderW : RawLine := { isHeader := true, text := "Opportunity #1" }

/-- The line "NET PROFIT: $1.2.3": the `net_profit` pattern
`NET PROFIT:\s+\$([\d.]+)` matches and captures "1.2.3". -/
def rawBadNetW : RawLine :=
  { netProfitRaw := some "1.2.3", text := "NET PROFIT: $1.2.3" }

/-- Parser state after the header line of the raising run. -/
def sAfterHeaderW : ScraperState :=
  { buffer := ["Opportunity #1"],
    cur := some { timestamp := 0, raw_text := ["Opportunity #1"] } }

/-- Instance state left behind when the `ValueError` propagates out of
`parse_line` on the bad line. -/
def sRaisedW : ScraperState :=
  { buffer := ["Opportunity #1", "NET PROFIT: $1.2.3"],
    cur := some { timestamp := 0,
                  raw_text := ["Opportunity #1", "NET PROFIT: $1.2.3"] } }

/-- Claim C4 (code bug): `feedLine` is NOT exception-free. The
`net_profit` capture class `[\d.]+` admits multi-dot strings, and
`_extract_fields` converts the capture with a bare `float()`, so feeding
an opportunity header and then the line "NET PROFIT: $1.2.3" makes
`parse_line` raise an uncaught `ValueError` (the `Except.error` branch
of the refined model), while the conversion layer is faithful: "1.2.3"
fails exactly where the well-formed capture "1.2" converts successfully —
contradicting the spec's contract that malformed input is silently
dropped and `feedLine` never fails. -/
theorem parse_line_raises_on_malformed_capture :
    parse_line_exc 0 initScraper rawHeaderW =
      Except.ok (sAfterHeaderW, none) ∧
    parse_line_exc 0 sAfterHeaderW rawBadNetW = Except.error sRaisedW ∧
    pyFloat "1.2.3".data = none ∧
    (pyFloat "1.2".data).isSome = true := by
  refine ⟨rfl, rfl, rfl, rfl⟩

/-! ## Claim C10: content lines in the idle state are ignored -/

/-- Claim C10: while no record is in progress, a non-header line produces
no output and leaves the parser with no record in progress — no field is
extracted and the line is recorded in no record's raw text (it only lands
in the write-only `buffer` list, which no record ever reads). -/
theorem idle_content_line_ignored (now : Nat) (s : ScraperState) (l : Line)
    (hidle : s.cur = none) (hhdr : l.isHeader = false) :
    (parse_line now s l).2 = none ∧ (parse_line now s l).1.cur = none := by
  unfold parse_line
  by_cases hb : l.isBlank = true
  · rw [if_pos hb]
    exact ⟨rfl, hidle⟩
  · rw [if_neg hb]
    dsimp only []
    rw [if_neg (by simp [hhdr] : ¬ l.isHeader = true), hidle]
    exact ⟨rfl, rfl⟩

/-- A plain content line for the C10 witness. -/
def lnContentW : Line := { text := "x" }

/-- Witness for C10: the initial (idle) parser ignores a content line. -/
theorem idle_content_line_ignored_witness :
    (parse_line 0 initScraper lnContentW).2 = none ∧
    (parse_line 0 initScraper lnContentW).1.cur = none :=
  idle_content_line_ignored 0 initScraper lnContentW rfl rfl

/-! ## Claims C5 and C6: the pipeline consumer -/

lemma pair_risk_defaults : evaluate_pair_risk {} {} = 0 := by
  have hnew : strHas (strLower "") "new" = false := by decide
  norm_num [evaluate_pair_risk, hnew]

lemma check_honeypot_le_one_of_no_model (st : DetectorState) (opp : Opp)
    (r : Research) (h : st.isolation_forest = none) :
    check_honeypot st opp r ≤ 1 := by
  rw [check_honeypot_def, h]
  dsimp only []
  refine pyMax_le _ _ (by norm_num) ?_
  intro x hx
  rcases List.mem_append.mp hx with hx1 | hx2
  · rcases List.mem_append.mp hx1 with hx3 | hx4
    · rcases List.mem_map.mp hx3 with ⟨t, _, rfl⟩
      exact evaluate_token_risk_le_one _ _ _
    · rcases List.mem_singleton.mp hx4 with rfl
      exact evaluate_pair_risk_le_one opp r
  · cases hx2

lemma check_honeypot_all_defaults : check_honeypot {} {} {} = 0 := by
  rw [check_honeypot_def]
  dsimp only []
  simp [pair_risk_defaults, pyMax]

/-- Claim C5: per dequeued record the consumer computes the honeypot
risk; when it exceeds 0.7 it marks the record not viable and never
invokes the viability scorer (no viability score is produced), otherwise
it invokes the viability scorer and sets the viable flag from
`viability > 0.6`; in both branches the record and its research data are
forwarded to the persistence collaborator. -/
theorem pipeline_short_circuit (env : Env) (det : DetectorState) (opp : Opp)
    (research : Research) :
    (process_opportunity env det opp research).viability_invoked =
      !(decide (check_honeypot det opp research > 0.7)) ∧
    (process_opportunity env det opp research).opp.viable =
      some (if check_honeypot det opp research > 0.7 then false
            else decide (predict_viability env opp research > 0.6)) ∧
    (process_opportunity env det opp research).opp.viability_score =
      (if check_honeypot det opp research > 0.7 then opp.viability_score
       else some (predict_viability env opp research)) ∧
    (process_opportunity env det opp research).stored =
      some ((process_opportunity env det opp research).opp, research) := by
  by_cases h : check_honeypot det opp research > 0.7
  · refine ⟨?_, ?_, ?_, ?_⟩ <;> simp [process_opportunity, h]
  · refine ⟨?_, ?_, ?_, ?_⟩ <;> simp [process_opportunity, h]

/-- Claim C6, counterexample: a record that passes the short-circuit
check (honeypot risk 0, not above 0.7) is forwarded to persistence with
NO `honeypot_risk` key — the pass branch of `process_opportunities` never
writes the computed risk into the record, contradicting the claim that
every forwarded scoring result carries a honeypotRisk value. -/
theorem stored_record_missing_honeypot_risk :
    (process_opportunity {} {} {} {}).opp.honeypot_risk = none ∧
    ¬ check_honeypot {} {} {} > 0.7 := by
  have hno : ¬ check_honeypot ({} : DetectorState) ({} : Opp)
      ({} : Research) > 0.7 := by
    rw [check_honeypot_all_defaults]; norm_num
  exact ⟨by simp [process_opportunity, hno], hno⟩

/-- Claim C6, amended: every forwarded record carries a viable boolean;
its viabilityScore is present exactly when the short-circuit did NOT
fire; its honeypotRisk is present exactly when the short-circuit DID fire
(records that pass the check do not carry their computed honeypot risk),
in which case it equals the computed risk, which exceeds 0.7 and is at
most 1 when no anomaly model is attached. -/
theorem stored_scores_presence (env : Env) (det : DetectorState) (opp : Opp)
    (research : Research) (h0 : opp.honeypot_risk = none)
    (h1 : opp.viability_score = none) :
    ((process_opportunity env det opp research).opp.viable).isSome = true ∧
    ((process_opportunity env det opp research).opp.viability_score.isSome =
      !(decide (check_honeypot det opp research > 0.7))) ∧
    ((process_opportunity env det opp research).opp.honeypot_risk.isSome =
      decide (check_honeypot det opp research > 0.7)) ∧
    (check_honeypot det opp research > 0.7 →
      (process_opportunity env det opp research).opp.honeypot_risk =
        some (check_honeypot det opp research)) ∧
    (det.isolation_forest = none → check_honeypot det opp research ≤ 1) := by
  refine ⟨?_, ?_, ?_, ?_,
    fun him => check_honeypot_le_one_of_no_model det opp research him⟩ <;>
  by_cases h : check_honeypot det opp research > 0.7 <;>
  simp [process_opportunity, h, h0, h1]

/-- Witness for the amended C6 theorem at all-default inputs: the
hypotheses (fresh record with no risk/score keys, detector without a
model) are discharged concretely. -/
theorem stored_scores_presence_witness :
    ((process_opportunity {} {} {} {}).opp.honeypot_risk.isSome =
      decide (check_honeypot {} {} {} > 0.7)) ∧
    check_honeypot {} {} {} ≤ 1 := by
  obtain ⟨_, _, h3, _, h5⟩ := stored_scores_presence {} {} {} {} rfl rfl
  exact ⟨h3, h5 rfl⟩

end Ayo
